import Mathlib

/-!
Shallow embedding of the Homgar polling service (src/api.py) core logic:
the alert throttle engine `is_max_temperature`, the session manager
`ensure_logged_in`, the device tree builder `get_devices_for_hid`, the
status dispatcher `get_device_status`, and the persisted alert state
loaded by `init_sensor`.  Python floats and datetimes are embedded as
exact rationals (times are absolute epoch seconds), machine integers as
Lean integers.
-/

namespace Homgar

/-- Python `int()` truncation toward zero, applied to a rational value.
The source applies it to the persisted threshold (`int(subdevice.alert_temp_max)`)
and to the cooldown (`int(subdevice.alert_frequency)`). -/
def pyInt (q : ℚ) : ℤ := if 0 ≤ q then ⌊q⌋ else -⌊-q⌋

/-- Celsius value computed from a raw milli-Kelvin reading, as in
`temp_mk_current * 1e-3 - 273.15` (exact arithmetic). -/
def tempCelsius (mk : ℚ) : ℚ := mk / 1000 - 27315 / 100

/-- Outcome of one alert evaluation: below threshold or disabled (`noAlert`),
over threshold inside the cooldown window (`suppressed`), or a firing event
(`fired`). -/
inductive AlertOutcome
  | noAlert
  | suppressed
  | fired
  deriving DecidableEq

/-- In-memory state of a `TemperatureAirSensor` relevant to
`is_max_temperature`: the persisted alert settings plus the fields the
evaluation writes (`alert_last_check`, `alert_temp_curr`).  Times are epoch
seconds, temperatures Celsius. -/
structure SensorState where
  did : ℤ
  alert_temp_max : ℚ
  alert_frequency : ℚ
  alert_enabled : Bool
  alert_next_check : Option ℚ
  alert_last_check : Option ℚ
  alert_temp_curr : Option ℚ
  deriving DecidableEq

/-- Row inserted into the `history` table by `is_max_temperature`. -/
structure HistoryRecord where
  did : ℤ
  timestamp : ℚ
  temperature : ℚ
  alert_triggered : Bool
  alert_temp_max : ℤ
  alert_message : Option String
  deriving DecidableEq

/-- Everything one call of `is_max_temperature` does: the outcome, the
mutated in-memory sensor object, the optional history insert, the optional
Redis write and `device` table update of `alert_next_check`, whether
`alert_last_check` was persisted anywhere (it never is), and whether an
e-mail was sent (the `send_mail` call is commented out in the source, so
this is always `false`). -/
structure EvalResult where
  outcome : AlertOutcome
  state : SensorState
  history : Option HistoryRecord
  cache_next_check : Option ℚ
  db_next_check : Option ℚ
  db_last_check : Option ℚ
  notified : Bool
  deriving DecidableEq

/-- Eligibility test of the firing branch:
`alert_next_check is None or current_time_in_fra > parse(alert_next_check)`. -/
def eligibleB (next : Option ℚ) (now : ℚ) : Bool :=
  match next with
  | Option.none => true
  | some t => decide (now > t)

/-- Embedding of `HomgarApi.is_max_temperature` (src/api.py lines 284-362).
`now` is `datetime.now(timezone)` as epoch seconds, `temp_mk` the raw
`temp_mk_current` reading.  The function first stamps `alert_last_check`
and `alert_temp_curr` on the sensor, returns early when alerts are
disabled, otherwise compares the Celsius reading against the truncated
threshold, fires or suppresses according to `alert_next_check`, and
finally inserts one history row.  On firing only `alert_next_check` is
persisted (Redis and the `device` table); the in-memory
`alert_next_check` attribute is left as it was and no mail is sent. -/
def is_max_temperature (now : ℚ) (s0 : SensorState) (temp_mk : ℚ) : EvalResult :=
  let s1 : SensorState :=
    { s0 with alert_last_check := some now, alert_temp_curr := some (tempCelsius temp_mk) }
  if s0.alert_enabled ≠ true then
    { outcome := AlertOutcome.noAlert, state := s1, history := Option.none,
      cache_next_check := Option.none, db_next_check := Option.none,
      db_last_check := Option.none, notified := false }
  else
    let curr_temp : ℚ := tempCelsius temp_mk
    let alert_temp_max : ℤ := pyInt s0.alert_temp_max
    if (alert_temp_max : ℚ) ≤ curr_temp then
      if eligibleB s0.alert_next_check now then
        let time_next : ℚ := now + (pyInt s0.alert_frequency : ℚ) * 3600
        { outcome := AlertOutcome.fired, state := s1,
          history := some { did := s0.did, timestamp := now, temperature := curr_temp,
                            alert_triggered := true, alert_temp_max := alert_temp_max,
                            alert_message := Option.none },
          cache_next_check := some time_next, db_next_check := some time_next,
          db_last_check := Option.none, notified := false }
      else
        { outcome := AlertOutcome.suppressed, state := s1,
          history := some { did := s0.did, timestamp := now, temperature := curr_temp,
                            alert_triggered := true, alert_temp_max := alert_temp_max,
                            alert_message := Option.none },
          cache_next_check := Option.none, db_next_check := Option.none,
          db_last_check := Option.none, notified := false }
    else
      { outcome := AlertOutcome.noAlert, state := s1,
        history := some { did := s0.did, timestamp := now, temperature := curr_temp,
                          alert_triggered := false, alert_temp_max := alert_temp_max,
                          alert_message := Option.none },
        cache_next_check := Option.none, db_next_check := Option.none,
        db_last_check := Option.none, notified := false }

/-- Persisted per-device row of the `device` table read by `init_sensor`
and updated (only `alert_next_check`) by a firing evaluation. -/
structure DbState where
  did : ℤ
  alert_temp_max : ℚ
  alert_frequency : ℚ
  alert_enabled : Bool
  alert_next_check : Option ℚ
  deriving DecidableEq

/-- Embedding of `HomgarApi.init_sensor` on an existing row: the four
persisted alert settings are loaded onto the freshly rebuilt sensor
object, whose per-cycle fields start out unset. -/
def init_sensor (db : DbState) : SensorState :=
  { did := db.did, alert_temp_max := db.alert_temp_max,
    alert_frequency := db.alert_frequency, alert_enabled := db.alert_enabled,
    alert_next_check := db.alert_next_check,
    alert_last_check := Option.none, alert_temp_curr := Option.none }

/-- Effect of one evaluation on the persisted row: a firing evaluation
executes `UPDATE device SET alert_next_check = time_next`; every other
outcome leaves the row untouched. -/
def commitDb (db : DbState) (r : EvalResult) : DbState :=
  match r.db_next_check with
  | Option.none => db
  | some t => { db with alert_next_check := some t }

/-- Modelled from the spec: one poll cycle for one sensor.  The repository
is missing `devices.py` and the orchestration that reloads persisted Alert
State each cycle, but `init_sensor` (src/api.py) reads the row and the
spec adopts the persisted-state model, so a cycle is: rebuild the sensor
from the row, run `is_max_temperature`, commit the row update. -/
def cycleStep (db : DbState) (now temp_mk : ℚ) : EvalResult × DbState :=
  let r := is_max_temperature now (init_sensor db) temp_mk
  (r, commitDb db r)

/-- A sequence of poll cycles over one sensor; each list entry is the
evaluation time and the raw milli-Kelvin reading of that cycle. -/
def runCycles (db : DbState) : List (ℚ × ℚ) → List EvalResult
  | [] => []
  | (t, mk) :: rest =>
      let p := cycleStep db t mk
      p.1 :: runCycles p.2 rest

/-- Cached vendor credential, as written by `login`: account e-mail, auth
token, absolute expiry (epoch seconds) and refresh token. -/
structure Credential where
  email : String
  token : String
  token_expires : ℚ
  refresh_token : String
  deriving DecidableEq

/-- Embedding of `HomgarApi.ensure_logged_in` (src/api.py lines 212-228):
returns `true` exactly when a fresh login exchange is performed, i.e. when
the cached e-mail differs from the requested identity (also when nothing
is cached) or the token expires in under 60 minutes. -/
def ensure_logged_in (cred : Option Credential) (now : ℚ) (email : String) : Bool :=
  match cred with
  | Option.none => true
  | some c => decide (c.email ≠ email) || decide (c.token_expires - now < 60 * 60)

/-- Raw vendor device entry, as consumed by `device_base_props` in
`get_devices_for_hid`; a `Option.none` field models a missing JSON key
(`dict.get` returns `None`). -/
structure RawDevice where
  model_code : Option ℤ
  did : Option ℤ
  mid : Option ℤ
  name : Option String
  addr : Option ℤ
  deriving DecidableEq

/-- Raw vendor hub entry: its own properties plus the `subDevices` list. -/
structure RawHub where
  props : RawDevice
  subDevices : List RawDevice
  deriving DecidableEq

/-- Typed device variant.  `hub` is `HomgarHubDevice`, the generic fallback
class; the concrete sensor classes of the missing `devices.py` are
abstracted as `temperatureAirSensor` and `otherClass`. -/
inductive DeviceClass
  | hub
  | temperatureAirSensor
  | otherClass (code : ℤ)
  deriving DecidableEq

/-- Embedding of the inner `get_device_class`: look the vendor model code
up in `MODEL_CODE_MAPPING` (abstracted as the `mapping` argument, since
`devices.py` is not in the repository sources); an absent code or an
unmapped code yields `Option.none` (the source logs a warning and returns
`None`). -/
def get_device_class (mapping : ℤ → Option DeviceClass) (d : RawDevice) : Option DeviceClass :=
  d.model_code.bind mapping

/-- A constructed sub-device: its resolved class plus the raw properties. -/
structure BuiltDevice where
  cls : DeviceClass
  props : RawDevice
  deriving DecidableEq

/-- A constructed hub: resolved (or fallback) class, raw properties, and
the attached sub-devices in vendor-reported order. -/
structure BuiltHub where
  cls : DeviceClass
  props : RawDevice
  subdevices : List BuiltDevice
  deriving DecidableEq

/-- The sub-device loop of `get_devices_for_hid`: entries whose `did` is
the reserved display identifier 1 are skipped, entries with an unmapped
model code are dropped (warning only), the rest are constructed in order. -/
def buildSubdevices (mapping : ℤ → Option DeviceClass) (subs : List RawDevice) :
    List BuiltDevice :=
  subs.filterMap fun sd =>
    if sd.did = some 1 then Option.none
    else (get_device_class mapping sd).map fun c => { cls := c, props := sd }

/-- Construction of one hub in `get_devices_for_hid`: an unmapped hub model
code falls back to the generic `HomgarHubDevice` class. -/
def buildHub (mapping : ℤ → Option DeviceClass) (hub_data : RawHub) : BuiltHub :=
  { cls := (get_device_class mapping hub_data.props).getD DeviceClass.hub,
    props := hub_data.props,
    subdevices := buildSubdevices mapping hub_data.subDevices }

/-- Embedding of `HomgarApi.get_devices_for_hid` (src/api.py lines 144-195)
applied to the decoded vendor listing. -/
def get_devices_for_hid (mapping : ℤ → Option DeviceClass) (data : List RawHub) :
    List BuiltHub :=
  data.map (buildHub mapping)

/-- One record of the `subDeviceStatus` payload handled by
`get_device_status`; `id := Option.none` models a malformed record lacking
the `id` key, on which the subscript `subdevice_status[...]` raises
`KeyError`. -/
structure StatusRecord where
  id : Option ℤ
  value : ℤ
  deriving DecidableEq

/-- Modelled from the spec: a device as seen by the status dispatcher.
`statusIds` stands for `get_device_status_ids()` (each device answers to
one or more status ids) and `lastStatus` for the live fields written by
`set_device_status`; both methods live in the missing `devices.py`. -/
structure StatusDevice where
  statusIds : List ℤ
  lastStatus : Option StatusRecord
  deriving DecidableEq

/-- A hub together with its sub-devices, the unit `get_device_status`
updates. -/
structure StatusHub where
  hub : StatusDevice
  subdevices : List StatusDevice
  deriving DecidableEq

/-- Iteration order of the `id_map` dict comprehension:
`[hub, *hub.subdevices]`. -/
def devicesOf (h : StatusHub) : List StatusDevice := h.hub :: h.subdevices

/-- Owner lookup of the `id_map` dict comprehension.  Later entries of a
Python dict comprehension overwrite earlier ones, so the owner of a status
id is the last device in `[hub, *subdevices]` that lists it. -/
def id_map_idx : List StatusDevice → ℤ → Option ℕ
  | [], _ => Option.none
  | d :: ds, i =>
      match id_map_idx ds i with
      | some j => some (j + 1)
      | Option.none => if i ∈ d.statusIds then some 0 else Option.none

/-- Modelled from the spec: `set_device_status` updates the owning
device's live fields in place from the status record. -/
def set_device_status (d : StatusDevice) (r : StatusRecord) : StatusDevice :=
  { d with lastStatus := some r }

/-- Application of one matched status record at position `j` of
`[hub, *subdevices]`. -/
def applyAt (h : StatusHub) (j : ℕ) (r : StatusRecord) : StatusHub :=
  if j = 0 then { h with hub := set_device_status h.hub r }
  else { h with subdevices := h.subdevices.modify (fun d => set_device_status d r) (j - 1) }

/-- Embedding of `HomgarApi.get_device_status` (src/api.py lines 197-210):
records are processed in order, an id absent from `id_map` is ignored, and
a record lacking the `id` key raises `KeyError` — the boolean component is
`false` and the remaining records are not processed (the exception
propagates to the caller's catch-all). -/
def get_device_status (h : StatusHub) : List StatusRecord → StatusHub × Bool
  | [] => (h, true)
  | r :: rs =>
      match r.id with
      | Option.none => (h, false)
      | some i =>
          match id_map_idx (devicesOf h) i with
          | Option.none => get_device_status h rs
          | some j => get_device_status (applyAt h j r) rs

lemma pyInt_intCast (n : ℤ) : pyInt ((n : ℤ) : ℚ) = n := by
  unfold pyInt
  rcases le_or_lt 0 ((n : ℤ) : ℚ) with h | h
  · rw [if_pos h, Int.floor_intCast]
  · rw [if_neg (not_le.mpr h), ← Int.cast_neg, Int.floor_intCast, neg_neg]

lemma is_max_temperature_disabled (now : ℚ) (s : SensorState) (mk : ℚ)
    (h : s.alert_enabled = false) :
    is_max_temperature now s mk =
      { outcome := AlertOutcome.noAlert,
        state := { s with alert_last_check := some now, alert_temp_curr := some (tempCelsius mk) },
        history := Option.none, cache_next_check := Option.none,
        db_next_check := Option.none, db_last_check := Option.none,
        notified := false } := by
  simp [is_max_temperature, h]

lemma is_max_temperature_below (now : ℚ) (s : SensorState) (mk : ℚ)
    (h1 : s.alert_enabled = true)
    (h2 : tempCelsius mk < (pyInt s.alert_temp_max : ℚ)) :
    is_max_temperature now s mk =
      { outcome := AlertOutcome.noAlert,
        state := { s with alert_last_check := some now, alert_temp_curr := some (tempCelsius mk) },
        history := some { did := s.did, timestamp := now, temperature := tempCelsius mk,
                          alert_triggered := false, alert_temp_max := pyInt s.alert_temp_max,
                          alert_message := Option.none },
        cache_next_check := Option.none, db_next_check := Option.none,
        db_last_check := Option.none, notified := false } := by
  simp [is_max_temperature, h1, not_le.mpr h2]

lemma is_max_temperature_fired (now : ℚ) (s : SensorState) (mk : ℚ)
    (h1 : s.alert_enabled = true)
    (h2 : (pyInt s.alert_temp_max : ℚ) ≤ tempCelsius mk)
    (h3 : eligibleB s.alert_next_check now = true) :
    is_max_temperature now s mk =
      { outcome := AlertOutcome.fired,
        state := { s with alert_last_check := some now, alert_temp_curr := some (tempCelsius mk) },
        history := some { did := s.did, timestamp := now, temperature := tempCelsius mk,
                          alert_triggered := true, alert_temp_max := pyInt s.alert_temp_max,
                          alert_message := Option.none },
        cache_next_check := some (now + (pyInt s.alert_frequency : ℚ) * 3600),
        db_next_check := some (now + (pyInt s.alert_frequency : ℚ) * 3600),
        db_last_check := Option.none, notified := false } := by
  simp [is_max_temperature, h1, h2, h3]

lemma is_max_temperature_suppressed (now : ℚ) (s : SensorState) (mk : ℚ)
    (h1 : s.alert_enabled = true)
    (h2 : (pyInt s.alert_temp_max : ℚ) ≤ tempCelsius mk)
    (h3 : eligibleB s.alert_next_check now = false) :
    is_max_temperature now s mk =
      { outcome := AlertOutcome.suppressed,
        state := { s with alert_last_check := some now, alert_temp_curr := some (tempCelsius mk) },
        history := some { did := s.did, timestamp := now, temperature := tempCelsius mk,
                          alert_triggered := true, alert_temp_max := pyInt s.alert_temp_max,
                          alert_message := Option.none },
        cache_next_check := Option.none, db_next_check := Option.none,
        db_last_check := Option.none, notified := false } := by
  simp [is_max_temperature, h1, h2, h3]

lemma eligibleB_eq_true_iff (next : Option ℚ) (now : ℚ) :
    eligibleB next now = true ↔
      (next = Option.none ∨ ∃ u, next = some u ∧ u < now) := by
  cases next with
  | none => simp [eligibleB]
  | some t => simp [eligibleB, gt_iff_lt]

lemma is_max_outcome_fired_iff (now : ℚ) (s : SensorState) (mk : ℚ) :
    (is_max_temperature now s mk).outcome = AlertOutcome.fired ↔
      (s.alert_enabled = true ∧ (pyInt s.alert_temp_max : ℚ) ≤ tempCelsius mk ∧
        eligibleB s.alert_next_check now = true) := by
  cases hen : s.alert_enabled with
  | false => rw [is_max_temperature_disabled now s mk hen]; simp
  | true =>
      rcases le_or_lt (pyInt s.alert_temp_max : ℚ) (tempCelsius mk) with hle | hlt
      · cases helig : eligibleB s.alert_next_check now with
        | false => rw [is_max_temperature_suppressed now s mk hen hle helig]; simp
        | true => rw [is_max_temperature_fired now s mk hen hle helig]; simp [hle]
      · rw [is_max_temperature_below now s mk hen hlt]
        simp [not_le.mpr hlt]

lemma cycleStep_fired_eq (db : DbState) (t mk : ℚ)
    (hen : db.alert_enabled = true)
    (hov : (pyInt db.alert_temp_max : ℚ) ≤ tempCelsius mk)
    (helig : eligibleB db.alert_next_check t = true) :
    cycleStep db t mk =
      (is_max_temperature t (init_sensor db) mk,
       { db with alert_next_check := some (t + (pyInt db.alert_frequency : ℚ) * 3600) }) := by
  have h := is_max_temperature_fired t (init_sensor db) mk
    (by simpa [init_sensor] using hen) (by simpa [init_sensor] using hov)
    (by simpa [init_sensor] using helig)
  simp only [cycleStep]
  rw [h]
  simp [commitDb, init_sensor]

lemma cycleStep_suppressed_eq (db : DbState) (t mk : ℚ)
    (hen : db.alert_enabled = true)
    (hov : (pyInt db.alert_temp_max : ℚ) ≤ tempCelsius mk)
    (helig : eligibleB db.alert_next_check t = false) :
    cycleStep db t mk = (is_max_temperature t (init_sensor db) mk, db) := by
  have h := is_max_temperature_suppressed t (init_sensor db) mk
    (by simpa [init_sensor] using hen) (by simpa [init_sensor] using hov)
    (by simpa [init_sensor] using helig)
  simp only [cycleStep]
  rw [h]
  simp [commitDb]

lemma cycleStep_outcome_fired_iff (db : DbState) (t mk : ℚ) :
    (cycleStep db t mk).1.outcome = AlertOutcome.fired ↔
      (db.alert_enabled = true ∧ (pyInt db.alert_temp_max : ℚ) ≤ tempCelsius mk ∧
        eligibleB db.alert_next_check t = true) := by
  have h := is_max_outcome_fired_iff t (init_sensor db) mk
  simpa [cycleStep, init_sensor] using h

lemma cycleStep_fired_next (db : DbState) (t mk : ℚ)
    (h : (cycleStep db t mk).1.outcome = AlertOutcome.fired) :
    (cycleStep db t mk).2 =
      { db with alert_next_check := some (t + (pyInt db.alert_frequency : ℚ) * 3600) } := by
  obtain ⟨hen, hov, helig⟩ := (cycleStep_outcome_fired_iff db t mk).mp h
  rw [cycleStep_fired_eq db t mk hen hov helig]

lemma runCycles_suppressed (db : DbState) (n : ℚ) (L : List (ℚ × ℚ))
    (hen : db.alert_enabled = true) (hnext : db.alert_next_check = some n)
    (hL : ∀ p ∈ L, (pyInt db.alert_temp_max : ℚ) ≤ tempCelsius p.2 ∧ p.1 ≤ n) :
    (runCycles db L).map EvalResult.outcome
        = L.map (fun _ => AlertOutcome.suppressed) ∧
      (runCycles db L).map EvalResult.notified = L.map (fun _ => false) := by
  induction L with
  | nil => simp [runCycles]
  | cons p L ih =>
      obtain ⟨t, mk⟩ := p
      have hp := hL (t, mk) (List.mem_cons_self _ _)
      have helig : eligibleB db.alert_next_check t = false := by
        simp only [hnext, eligibleB, gt_iff_lt, decide_eq_false_iff_not, not_lt]
        exact hp.2
      have hstep := cycleStep_suppressed_eq db t mk hen hp.1 helig
      have hev := is_max_temperature_suppressed t (init_sensor db) mk
        (by simpa [init_sensor] using hen) (by simpa [init_sensor] using hp.1)
        (by simpa [init_sensor] using helig)
      have hrest := ih (fun q hq => hL q (List.mem_cons_of_mem _ hq))
      constructor
      · simp only [runCycles, hstep, List.map_cons, hrest.1, hev]
      · simp only [runCycles, hstep, List.map_cons, hrest.2, hev]

lemma is_max_temperature_invariants (now : ℚ) (s : SensorState) (mk : ℚ) :
    (is_max_temperature now s mk).notified = false ∧
    (is_max_temperature now s mk).db_last_check = Option.none ∧
    (is_max_temperature now s mk).state.alert_last_check = some now ∧
    (is_max_temperature now s mk).state.alert_temp_curr = some (tempCelsius mk) ∧
    (is_max_temperature now s mk).state.alert_next_check = s.alert_next_check ∧
    (is_max_temperature now s mk).state.alert_temp_max = s.alert_temp_max ∧
    (is_max_temperature now s mk).state.alert_frequency = s.alert_frequency ∧
    (is_max_temperature now s mk).state.alert_enabled = s.alert_enabled ∧
    (∀ r, (is_max_temperature now s mk).history = some r →
      r.alert_message = Option.none ∧ r.did = s.did ∧ r.timestamp = now ∧
      r.temperature = tempCelsius mk ∧ r.alert_temp_max = pyInt s.alert_temp_max) := by
  cases hen : s.alert_enabled with
  | false =>
      rw [is_max_temperature_disabled now s mk hen]
      refine ⟨rfl, rfl, rfl, rfl, rfl, rfl, rfl, hen, ?_⟩
      intro r hr
      exact absurd hr (by simp)
  | true =>
      rcases le_or_lt (pyInt s.alert_temp_max : ℚ) (tempCelsius mk) with hle | hlt
      · cases helig : eligibleB s.alert_next_check now with
        | false =>
            rw [is_max_temperature_suppressed now s mk hen hle helig]
            refine ⟨rfl, rfl, rfl, rfl, rfl, rfl, rfl, hen, ?_⟩
            intro r hr
            cases Option.some_inj.mp hr
            exact ⟨rfl, rfl, rfl, rfl, rfl⟩
        | true =>
            rw [is_max_temperature_fired now s mk hen hle helig]
            refine ⟨rfl, rfl, rfl, rfl, rfl, rfl, rfl, hen, ?_⟩
            intro r hr
            cases Option.some_inj.mp hr
            exact ⟨rfl, rfl, rfl, rfl, rfl⟩
      · rw [is_max_temperature_below now s mk hen hlt]
        refine ⟨rfl, rfl, rfl, rfl, rfl, rfl, rfl, hen, ?_⟩
        intro r hr
        cases Option.some_inj.mp hr
        exact ⟨rfl, rfl, rfl, rfl, rfl⟩

/-- Sample persisted row: threshold 34 °C, cooldown 6 h, alerts enabled,
no pending cooldown. -/
def dbSample : DbState :=
  { did := 7, alert_temp_max := ((34 : ℤ) : ℚ), alert_frequency := ((6 : ℤ) : ℚ),
    alert_enabled := true, alert_next_check := Option.none }

lemma dbSample_pyInt_max : pyInt dbSample.alert_temp_max = 34 := pyInt_intCast 34

lemma dbSample_pyInt_freq : pyInt dbSample.alert_frequency = 6 := pyInt_intCast 6

lemma dbSample_over : (pyInt dbSample.alert_temp_max : ℚ) ≤ tempCelsius 308150 := by
  rw [dbSample_pyInt_max]
  norm_num [tempCelsius]

/-- C1 (amended): for an enabled sensor evaluated over threshold, the
evaluation fires exactly when `alert_next_check` is unset or the current
time is strictly after it, a firing persists
`alert_next_check = now + cooldown hours` to the device row, and over a
run of over-threshold cycles that all happen no later than the first
firing time plus the cooldown, exactly the first one fires and the rest
are suppressed.  Contrary to the claim, no notification is ever sent: the
`send_mail` call is commented out in the source, so every evaluation has
`notified = false`. -/
theorem alert_exactly_one_fire_per_window
    (db : DbState) (t1 mk1 : ℚ) (L : List (ℚ × ℚ))
    (hen : db.alert_enabled = true)
    (hov1 : (pyInt db.alert_temp_max : ℚ) ≤ tempCelsius mk1)
    (hL : ∀ p ∈ L, (pyInt db.alert_temp_max : ℚ) ≤ tempCelsius p.2 ∧
            p.1 ≤ t1 + (pyInt db.alert_frequency : ℚ) * 3600) :
    ((cycleStep db t1 mk1).1.outcome = AlertOutcome.fired ↔
        (db.alert_next_check = Option.none ∨
          ∃ u, db.alert_next_check = some u ∧ u < t1)) ∧
    (eligibleB db.alert_next_check t1 = true →
      (cycleStep db t1 mk1).2.alert_next_check
          = some (t1 + (pyInt db.alert_frequency : ℚ) * 3600) ∧
      (runCycles db ((t1, mk1) :: L)).map EvalResult.outcome
          = AlertOutcome.fired :: L.map (fun _ => AlertOutcome.suppressed) ∧
      (runCycles db ((t1, mk1) :: L)).map EvalResult.notified
          = false :: L.map (fun _ => false)) := by
  constructor
  · rw [cycleStep_outcome_fired_iff]
    simp [hen, hov1, eligibleB_eq_true_iff]
  · intro helig
    have hstep := cycleStep_fired_eq db t1 mk1 hen hov1 helig
    have hfst : (cycleStep db t1 mk1).1 = is_max_temperature t1 (init_sensor db) mk1 := by
      rw [hstep]
    have hsnd : (cycleStep db t1 mk1).2 =
        { db with alert_next_check := some (t1 + (pyInt db.alert_frequency : ℚ) * 3600) } := by
      rw [hstep]
    have hev := is_max_temperature_fired t1 (init_sensor db) mk1
      (by simpa [init_sensor] using hen) (by simpa [init_sensor] using hov1)
      (by simpa [init_sensor] using helig)
    have hsup := runCycles_suppressed (cycleStep db t1 mk1).2
      (t1 + (pyInt db.alert_frequency : ℚ) * 3600) L
      (by rw [hsnd]; exact hen) (by rw [hsnd])
      (by intro p hp; rw [hsnd]; exact hL p hp)
    refine ⟨by rw [hsnd], ?_, ?_⟩
    · simp only [runCycles, List.map_cons, hsup.1, hfst, hev]
    · simp only [runCycles, List.map_cons, hsup.2, hfst, hev]

/-- Witness for `alert_exactly_one_fire_per_window`: threshold 34 °C,
cooldown 6 h, three over-threshold readings of 35 °C spaced 2 h apart —
one `fired`, two `suppressed`, zero notifications. -/
theorem alert_exactly_one_fire_per_window_witness :
    (runCycles dbSample [(0, 308150), (7200, 308150), (14400, 308150)]).map EvalResult.outcome
        = [AlertOutcome.fired, AlertOutcome.suppressed, AlertOutcome.suppressed] ∧
    (runCycles dbSample [(0, 308150), (7200, 308150), (14400, 308150)]).map EvalResult.notified
        = [false, false, false] := by
  have h := alert_exactly_one_fire_per_window dbSample 0 308150
    [(7200, 308150), (14400, 308150)] rfl dbSample_over
    (by
      intro p hp
      fin_cases hp <;>
        exact ⟨dbSample_over, by rw [dbSample_pyInt_freq]; norm_num⟩)
  have h2 := h.2 rfl
  exact ⟨by simpa using h2.2.1, by simpa using h2.2.2⟩

/-- Counterexample for C1 as stated: the single firing evaluation sends no
notification (`send_mail` is commented out), so "exactly one evaluation
fires and sends one notification" is false — one fires and zero
notifications are sent. -/
theorem alert_fired_without_notification_cex :
    (runCycles dbSample [(0, 308150)]).map EvalResult.outcome = [AlertOutcome.fired] ∧
    (runCycles dbSample [(0, 308150)]).map EvalResult.notified = [false] := by
  have hev := is_max_temperature_fired 0 (init_sensor dbSample) 308150 rfl
    (by simpa [init_sensor] using dbSample_over) rfl
  have hstep := cycleStep_fired_eq dbSample 0 308150 rfl dbSample_over rfl
  have hfst : (cycleStep dbSample 0 308150).1
      = is_max_temperature 0 (init_sensor dbSample) 308150 := by rw [hstep]
  constructor
  · simp only [runCycles, List.map_cons, List.map_nil, hfst, hev]
  · simp only [runCycles, List.map_cons, List.map_nil, hfst, hev]

/-- Sample persisted row with a zero-hour cooldown. -/
def dbZero : DbState :=
  { did := 8, alert_temp_max := ((34 : ℤ) : ℚ), alert_frequency := ((0 : ℤ) : ℚ),
    alert_enabled := true, alert_next_check := Option.none }

lemma dbZero_over : (pyInt dbZero.alert_temp_max : ℚ) ≤ tempCelsius 308150 := by
  rw [show dbZero.alert_temp_max = ((34 : ℤ) : ℚ) from rfl, pyInt_intCast]
  norm_num [tempCelsius]

/-- C7: across two successive cycles that both fire (evaluation times
non-decreasing, as physical time is), the persisted `alert_next_check` is
non-decreasing; and a cooldown of zero or negative hours never blocks a
later over-threshold evaluation — after a firing at `t1`, any
over-threshold evaluation at `t2 > t1` fires again (no failure or
overflow: the arithmetic is total). -/
theorem next_check_monotone_and_zero_cooldown
    (db : DbState) (t1 mk1 t2 mk2 : ℚ) :
    (t1 ≤ t2 →
      (cycleStep db t1 mk1).1.outcome = AlertOutcome.fired →
      (cycleStep (cycleStep db t1 mk1).2 t2 mk2).1.outcome = AlertOutcome.fired →
      ∀ n1 n2, (cycleStep db t1 mk1).2.alert_next_check = some n1 →
        (cycleStep (cycleStep db t1 mk1).2 t2 mk2).2.alert_next_check = some n2 →
        n1 ≤ n2) ∧
    (pyInt db.alert_frequency ≤ 0 →
      (cycleStep db t1 mk1).1.outcome = AlertOutcome.fired →
      t1 < t2 →
      (pyInt db.alert_temp_max : ℚ) ≤ tempCelsius mk2 →
      (cycleStep (cycleStep db t1 mk1).2 t2 mk2).1.outcome = AlertOutcome.fired) := by
  constructor
  · intro ht h1 h2 n1 n2 hn1 hn2
    have hdb1 := cycleStep_fired_next db t1 mk1 h1
    have hdb2 := cycleStep_fired_next (cycleStep db t1 mk1).2 t2 mk2 h2
    have hfreq1 : (cycleStep db t1 mk1).2.alert_frequency = db.alert_frequency := by
      rw [hdb1]
    have e1' : (cycleStep db t1 mk1).2.alert_next_check
        = some (t1 + (pyInt db.alert_frequency : ℚ) * 3600) := by
      rw [hdb1]
    have e2' : (cycleStep (cycleStep db t1 mk1).2 t2 mk2).2.alert_next_check
        = some (t2 + (pyInt db.alert_frequency : ℚ) * 3600) := by
      rw [hdb2, hfreq1]
    have e1 : n1 = t1 + (pyInt db.alert_frequency : ℚ) * 3600 :=
      Option.some_inj.mp (hn1.symm.trans e1')
    have e2 : n2 = t2 + (pyInt db.alert_frequency : ℚ) * 3600 :=
      Option.some_inj.mp (hn2.symm.trans e2')
    rw [e1, e2]
    linarith
  · intro hfreq h1 ht hov2
    have hdb1 := cycleStep_fired_next db t1 mk1 h1
    obtain ⟨hen, _, _⟩ := (cycleStep_outcome_fired_iff db t1 mk1).mp h1
    rw [cycleStep_outcome_fired_iff, hdb1]
    refine ⟨hen, hov2, ?_⟩
    rw [eligibleB_eq_true_iff]
    refine Or.inr ⟨t1 + (pyInt db.alert_frequency : ℚ) * 3600, rfl, ?_⟩
    have hcast : ((pyInt db.alert_frequency : ℤ) : ℚ) ≤ 0 := by
      exact_mod_cast hfreq
    nlinarith

/-- Witness for `next_check_monotone_and_zero_cooldown`: with threshold
34 °C and cooldown 6 h, firings at t=0 and t=30000 s give persisted
next-check values 21600 and 51600; with a zero-hour cooldown, a second
over-threshold evaluation 10 s after a firing fires again. -/
theorem next_check_monotone_and_zero_cooldown_witness :
    (cycleStep dbSample 0 308150).1.outcome = AlertOutcome.fired ∧
    (cycleStep (cycleStep dbSample 0 308150).2 30000 308150).1.outcome = AlertOutcome.fired ∧
    (cycleStep dbSample 0 308150).2.alert_next_check = some 21600 ∧
    (cycleStep (cycleStep dbSample 0 308150).2 30000 308150).2.alert_next_check = some 51600 ∧
    (21600 : ℚ) ≤ 51600 ∧
    (cycleStep (cycleStep dbZero 0 308150).2 10 308150).1.outcome = AlertOutcome.fired := by
  have hf1 : (cycleStep dbSample 0 308150).1.outcome = AlertOutcome.fired :=
    (cycleStep_outcome_fired_iff dbSample 0 308150).mpr ⟨rfl, dbSample_over, rfl⟩
  have hdb1 := cycleStep_fired_next dbSample 0 308150 hf1
  have hf2 : (cycleStep (cycleStep dbSample 0 308150).2 30000 308150).1.outcome
      = AlertOutcome.fired := by
    rw [cycleStep_outcome_fired_iff, hdb1]
    refine ⟨rfl, dbSample_over, ?_⟩
    rw [eligibleB_eq_true_iff]
    exact Or.inr ⟨0 + (pyInt dbSample.alert_frequency : ℚ) * 3600, rfl,
      by rw [dbSample_pyInt_freq]; norm_num⟩
  have hn1 : (cycleStep dbSample 0 308150).2.alert_next_check = some 21600 := by
    rw [hdb1, dbSample_pyInt_freq]
    norm_num
  have hdb2 := cycleStep_fired_next (cycleStep dbSample 0 308150).2 30000 308150 hf2
  have hn2 : (cycleStep (cycleStep dbSample 0 308150).2 30000 308150).2.alert_next_check
      = some 51600 := by
    rw [hdb2, hdb1]
    rw [show ({ dbSample with
        alert_next_check := some (0 + (pyInt dbSample.alert_frequency : ℚ) * 3600) }
          : DbState).alert_frequency = dbSample.alert_frequency from rfl, dbSample_pyInt_freq]
    norm_num
  have hle := (next_check_monotone_and_zero_cooldown dbSample 0 308150 30000 308150).1
    (by norm_num) hf1 hf2 21600 51600 hn1 hn2
  have hf0 : (cycleStep dbZero 0 308150).1.outcome = AlertOutcome.fired :=
    (cycleStep_outcome_fired_iff dbZero 0 308150).mpr ⟨rfl, dbZero_over, rfl⟩
  have hzero := (next_check_monotone_and_zero_cooldown dbZero 0 308150 10 308150).2
    (by rw [show dbZero.alert_frequency = ((0 : ℤ) : ℚ) from rfl, pyInt_intCast])
    hf0 (by norm_num) dbZero_over
  exact ⟨hf1, hf2, hn1, hn2, hle, hzero⟩

/-- Enabled sensor that is inside its cooldown window
(`alert_next_check` = 100000 s). -/
def sensorCooling : SensorState :=
  { did := 7, alert_temp_max := ((34 : ℤ) : ℚ), alert_frequency := ((6 : ℤ) : ℚ),
    alert_enabled := true, alert_next_check := some 100000,
    alert_last_check := Option.none, alert_temp_curr := Option.none }

lemma sensorCooling_over : (pyInt sensorCooling.alert_temp_max : ℚ) ≤ tempCelsius 308150 := by
  rw [show sensorCooling.alert_temp_max = ((34 : ℤ) : ℚ) from rfl, pyInt_intCast]
  norm_num [tempCelsius]

lemma sensorCooling_not_elig : eligibleB sensorCooling.alert_next_check 50000 = false := by
  rw [show sensorCooling.alert_next_check = some 100000 from rfl]
  simp only [eligibleB, gt_iff_lt, decide_eq_false_iff_not, not_lt]
  norm_num

/-- C2 (amended): every evaluation of an enabled sensor appends exactly one
history row, whose `alert_triggered` field is true exactly when the reading
is at or above the truncated threshold — i.e. for both `fired` and
`suppressed` outcomes, not only for `fired` — and a suppressed evaluation
performs no persisted write and leaves the in-memory `alert_next_check`
unchanged (only `alert_last_check`/`alert_temp_curr` are restamped). -/
theorem history_per_enabled_evaluation (now : ℚ) (s : SensorState) (mk : ℚ)
    (h : s.alert_enabled = true) :
    (∃ r, (is_max_temperature now s mk).history = some r ∧
       r.did = s.did ∧ r.timestamp = now ∧ r.temperature = tempCelsius mk ∧
       r.alert_temp_max = pyInt s.alert_temp_max ∧ r.alert_message = Option.none ∧
       (r.alert_triggered = true ↔ (pyInt s.alert_temp_max : ℚ) ≤ tempCelsius mk)) ∧
    ((is_max_temperature now s mk).outcome = AlertOutcome.suppressed →
       (is_max_temperature now s mk).db_next_check = Option.none ∧
       (is_max_temperature now s mk).cache_next_check = Option.none ∧
       (is_max_temperature now s mk).state.alert_next_check = s.alert_next_check) := by
  rcases le_or_lt (pyInt s.alert_temp_max : ℚ) (tempCelsius mk) with hle | hlt
  · cases helig : eligibleB s.alert_next_check now with
    | false =>
        rw [is_max_temperature_suppressed now s mk h hle helig]
        exact ⟨⟨_, rfl, rfl, rfl, rfl, rfl, rfl, by simp [hle]⟩,
          fun _ => ⟨rfl, rfl, rfl⟩⟩
    | true =>
        rw [is_max_temperature_fired now s mk h hle helig]
        exact ⟨⟨_, rfl, rfl, rfl, rfl, rfl, rfl, by simp [hle]⟩, by simp⟩
  · rw [is_max_temperature_below now s mk h hlt]
    refine ⟨⟨_, rfl, rfl, rfl, rfl, rfl, rfl, by simp [not_le.mpr hlt]⟩, by simp⟩

/-- Witness for `history_per_enabled_evaluation`: a below-threshold
evaluation of the enabled sample sensor (reading 30 °C against threshold
34 °C) appends one record with `alert_triggered = false`. -/
theorem history_per_enabled_evaluation_witness :
    (is_max_temperature 0 (init_sensor dbSample) 303150).history
        = some { did := 7, timestamp := 0, temperature := tempCelsius 303150,
                 alert_triggered := false, alert_temp_max := pyInt dbSample.alert_temp_max,
                 alert_message := Option.none } ∧
    ¬ (pyInt dbSample.alert_temp_max : ℚ) ≤ tempCelsius 303150 := by
  have hnle : ¬ (pyInt dbSample.alert_temp_max : ℚ) ≤ tempCelsius 303150 := by
    rw [dbSample_pyInt_max]
    norm_num [tempCelsius]
  obtain ⟨⟨r, hr, hdid, hts, htemp, hmax, hmsg, htrig⟩, _⟩ :=
    history_per_enabled_evaluation 0 (init_sensor dbSample) 303150 rfl
  have htrig' : r.alert_triggered = false := by
    cases htr : r.alert_triggered with
    | false => rfl
    | true => exact absurd (htrig.mp htr) (by simpa [init_sensor] using hnle)
  refine ⟨?_, hnle⟩
  rw [hr]
  cases r
  simp only at hdid hts htemp hmax hmsg htrig'
  simp_all [init_sensor, dbSample]

/-- Counterexample for C2 as stated: an over-threshold evaluation inside
the cooldown window is `suppressed`, yet its history row has
`alert_triggered = true` — the source sets `alert_triggered = True` on the
threshold test, before deciding fired versus suppressed. -/
theorem suppressed_history_triggered_cex :
    (is_max_temperature 50000 sensorCooling 308150).outcome = AlertOutcome.suppressed ∧
    (is_max_temperature 50000 sensorCooling 308150).history
        = some { did := 7, timestamp := 50000, temperature := tempCelsius 308150,
                 alert_triggered := true, alert_temp_max := pyInt sensorCooling.alert_temp_max,
                 alert_message := Option.none } := by
  rw [is_max_temperature_suppressed 50000 sensorCooling 308150 rfl
    sensorCooling_over sensorCooling_not_elig]
  exact ⟨rfl, rfl⟩

/-- Sensor whose threshold is the non-integral value 34.5 °C. -/
def sensorHalfThreshold : SensorState :=
  { did := 9, alert_temp_max := (69 : ℚ) / 2, alert_frequency := ((6 : ℤ) : ℚ),
    alert_enabled := true, alert_next_check := Option.none,
    alert_last_check := Option.none, alert_temp_curr := Option.none }

lemma pyInt_sixty_nine_halves : pyInt ((69 : ℚ) / 2) = 34 := by
  rw [pyInt, if_pos (by norm_num)]
  exact Int.floor_eq_iff.mpr (by norm_num)

/-- C3 (amended): the evaluated temperature is exactly
`milli-Kelvin / 1000 − 273.15`, and the threshold comparison is inclusive
but against the `int()`-truncated threshold: outcome is `noAlert` exactly
when the reading is strictly below `int(threshold_celsius)`; in particular,
for an integral threshold the claim's boundary behaviour holds (strictly
below → `noAlert`, exactly at the threshold → `fired` or `suppressed`). -/
theorem temperature_and_threshold (now : ℚ) (s : SensorState) (mk : ℚ) (n : ℤ) :
    (is_max_temperature now s mk).state.alert_temp_curr
        = some (mk / 1000 - 27315 / 100) ∧
    (s.alert_enabled = true → tempCelsius mk < (pyInt s.alert_temp_max : ℚ) →
        (is_max_temperature now s mk).outcome = AlertOutcome.noAlert) ∧
    (s.alert_enabled = true → (pyInt s.alert_temp_max : ℚ) ≤ tempCelsius mk →
        (is_max_temperature now s mk).outcome ≠ AlertOutcome.noAlert) ∧
    (s.alert_enabled = true → s.alert_temp_max = ((n : ℤ) : ℚ) →
        ((tempCelsius mk < (n : ℚ) →
            (is_max_temperature now s mk).outcome = AlertOutcome.noAlert) ∧
         (tempCelsius mk = (n : ℚ) →
            (is_max_temperature now s mk).outcome ≠ AlertOutcome.noAlert))) := by
  refine ⟨(is_max_temperature_invariants now s mk).2.2.2.1, ?_, ?_, ?_⟩
  · intro hen hlt
    rw [is_max_temperature_below now s mk hen hlt]
  · intro hen hle
    cases helig : eligibleB s.alert_next_check now with
    | false => rw [is_max_temperature_suppressed now s mk hen hle helig]; simp
    | true => rw [is_max_temperature_fired now s mk hen hle helig]; simp
  · intro hen hint
    constructor
    · intro hlt
      refine is_max_temperature_below now s mk hen ?_ ▸ rfl
      rw [hint, pyInt_intCast]
      exact hlt
    · intro heq
      have hle : (pyInt s.alert_temp_max : ℚ) ≤ tempCelsius mk := by
        rw [hint, pyInt_intCast, heq]
      cases helig : eligibleB s.alert_next_check now with
      | false => rw [is_max_temperature_suppressed now s mk hen hle helig]; simp
      | true => rw [is_max_temperature_fired now s mk hen hle helig]; simp

/-- Witness for `temperature_and_threshold`: the sample sensor (integral
threshold 34 °C) evaluated at exactly 34 °C (milli-Kelvin 307150) does not
return `noAlert`, and at 30 °C it does. -/
theorem temperature_and_threshold_witness :
    (is_max_temperature 0 (init_sensor dbSample) 307150).state.alert_temp_curr
        = some ((307150 : ℚ) / 1000 - 27315 / 100) ∧
    (is_max_temperature 0 (init_sensor dbSample) 307150).outcome ≠ AlertOutcome.noAlert ∧
    (is_max_temperature 0 (init_sensor dbSample) 303150).outcome = AlertOutcome.noAlert := by
  have h34 := temperature_and_threshold 0 (init_sensor dbSample) 307150 34
  have h30 := temperature_and_threshold 0 (init_sensor dbSample) 303150 34
  refine ⟨h34.1, ?_, ?_⟩
  · exact (h34.2.2.2 rfl rfl).2 (by norm_num [tempCelsius])
  · exact (h30.2.2.2 rfl rfl).1 (by norm_num [tempCelsius])

/-- Counterexample for C3 as stated: with the non-integral threshold
34.5 °C, a reading of 34.2 °C (milli-Kelvin 307350) is strictly below the
threshold, yet the outcome is not `noAlert`, because the source compares
against `int(34.5) = 34`. -/
theorem threshold_truncation_cex :
    tempCelsius 307350 < sensorHalfThreshold.alert_temp_max ∧
    (is_max_temperature 0 sensorHalfThreshold 307350).outcome ≠ AlertOutcome.noAlert := by
  constructor
  · show tempCelsius 307350 < (69 : ℚ) / 2
    norm_num [tempCelsius]
  · have hover : (pyInt sensorHalfThreshold.alert_temp_max : ℚ) ≤ tempCelsius 307350 := by
      rw [show sensorHalfThreshold.alert_temp_max = (69 : ℚ) / 2 from rfl,
        pyInt_sixty_nine_halves]
      norm_num [tempCelsius]
    rw [is_max_temperature_fired 0 sensorHalfThreshold 307350 rfl hover rfl]
    simp

/-- Sensor with alerts disabled and no recorded checks. -/
def sensorDisabled : SensorState :=
  { did := 5, alert_temp_max := ((40 : ℤ) : ℚ), alert_frequency := ((6 : ℤ) : ℚ),
    alert_enabled := false, alert_next_check := Option.none,
    alert_last_check := Option.none, alert_temp_curr := Option.none }

/-- C4 (amended): a disabled sensor always gets outcome `noAlert`, with no
history row, no cache or database write and no notification, and its
persisted settings (`alert_temp_max`, `alert_frequency`, `alert_enabled`,
`alert_next_check`) are untouched — but contrary to the claim the
in-memory `alert_last_check` and `alert_temp_curr` fields are overwritten
before the enabled check. -/
theorem disabled_sensor_no_alert (now : ℚ) (s : SensorState) (mk : ℚ)
    (h : s.alert_enabled = false) :
    (is_max_temperature now s mk).outcome = AlertOutcome.noAlert ∧
    (is_max_temperature now s mk).history = Option.none ∧
    (is_max_temperature now s mk).cache_next_check = Option.none ∧
    (is_max_temperature now s mk).db_next_check = Option.none ∧
    (is_max_temperature now s mk).db_last_check = Option.none ∧
    (is_max_temperature now s mk).notified = false ∧
    (is_max_temperature now s mk).state.alert_temp_max = s.alert_temp_max ∧
    (is_max_temperature now s mk).state.alert_frequency = s.alert_frequency ∧
    (is_max_temperature now s mk).state.alert_enabled = s.alert_enabled ∧
    (is_max_temperature now s mk).state.alert_next_check = s.alert_next_check ∧
    (is_max_temperature now s mk).state.alert_last_check = some now ∧
    (is_max_temperature now s mk).state.alert_temp_curr = some (tempCelsius mk) := by
  rw [is_max_temperature_disabled now s mk h]
  exact ⟨rfl, rfl, rfl, rfl, rfl, rfl, rfl, rfl, rfl, rfl, rfl, rfl⟩

/-- Witness for `disabled_sensor_no_alert` at the concrete disabled
sensor. -/
theorem disabled_sensor_no_alert_witness :
    (is_max_temperature 1000 sensorDisabled 300000).outcome = AlertOutcome.noAlert ∧
    (is_max_temperature 1000 sensorDisabled 300000).history = Option.none ∧
    (is_max_temperature 1000 sensorDisabled 300000).db_next_check = Option.none := by
  have h := disabled_sensor_no_alert 1000 sensorDisabled 300000 rfl
  exact ⟨h.1, h.2.1, h.2.2.2.1⟩

/-- Counterexample for C4 as stated: evaluating the disabled sensor
changes its `alert_last_check` (and `alert_temp_curr`) — lines 293-294 of
src/api.py run before the `alert_enabled` check — so "mutates no field of
the sensor's Alert State" is false. -/
theorem disabled_sensor_mutates_cex :
    (is_max_temperature 1000 sensorDisabled 300000).outcome = AlertOutcome.noAlert ∧
    (is_max_temperature 1000 sensorDisabled 300000).state.alert_last_check
        ≠ sensorDisabled.alert_last_check ∧
    (is_max_temperature 1000 sensorDisabled 300000).state.alert_temp_curr
        ≠ sensorDisabled.alert_temp_curr := by
  rw [is_max_temperature_disabled 1000 sensorDisabled 300000 rfl]
  refine ⟨rfl, ?_, ?_⟩ <;> simp [sensorDisabled]

/-- C5 (amended): a firing evaluation persists the new
`alert_next_check = now + cooldown` to both the Redis cache and the
`device` table, and nothing ever rolls it back; but contrary to the claim,
`last_check_at` is never persisted (it is only set on the in-memory
object), and no notification is sent at all (the `send_mail` call is
commented out), so the persist-before-notify ordering holds vacuously. -/
theorem firing_persists_next_check_only (now : ℚ) (s : SensorState) (mk : ℚ)
    (h : (is_max_temperature now s mk).outcome = AlertOutcome.fired) :
    (is_max_temperature now s mk).db_next_check
        = some (now + (pyInt s.alert_frequency : ℚ) * 3600) ∧
    (is_max_temperature now s mk).cache_next_check
        = some (now + (pyInt s.alert_frequency : ℚ) * 3600) ∧
    (is_max_temperature now s mk).db_last_check = Option.none ∧
    (is_max_temperature now s mk).notified = false := by
  obtain ⟨h1, h2, h3⟩ := (is_max_outcome_fired_iff now s mk).mp h
  rw [is_max_temperature_fired now s mk h1 h2 h3]
  exact ⟨rfl, rfl, rfl, rfl⟩

/-- Witness for `firing_persists_next_check_only`: the sample sensor
firing at t = 0 persists next-check 21600 s to cache and database. -/
theorem firing_persists_next_check_only_witness :
    (is_max_temperature 0 (init_sensor dbSample) 308150).outcome = AlertOutcome.fired ∧
    (is_max_temperature 0 (init_sensor dbSample) 308150).db_next_check = some 21600 ∧
    (is_max_temperature 0 (init_sensor dbSample) 308150).cache_next_check = some 21600 := by
  have hf : (is_max_temperature 0 (init_sensor dbSample) 308150).outcome
      = AlertOutcome.fired :=
    (is_max_outcome_fired_iff 0 (init_sensor dbSample) 308150).mpr
      ⟨rfl, by simpa [init_sensor] using dbSample_over, rfl⟩
  have h := firing_persists_next_check_only 0 (init_sensor dbSample) 308150 hf
  have hval : (0 : ℚ) + (pyInt (init_sensor dbSample).alert_frequency : ℚ) * 3600 = 21600 := by
    rw [show (init_sensor dbSample).alert_frequency = dbSample.alert_frequency from rfl,
      dbSample_pyInt_freq]
    norm_num
  exact ⟨hf, by rw [h.1, hval], by rw [h.2.1, hval]⟩

/-- Counterexample for C5 as stated: a firing evaluation does not persist
`last_check_at` anywhere — only `alert_next_check` is written to durable
storage — so "both updated Alert State fields are persisted" is false
(and no notification is sent either). -/
theorem firing_last_check_not_persisted_cex :
    (is_max_temperature 0 (init_sensor dbSample) 308150).outcome = AlertOutcome.fired ∧
    (is_max_temperature 0 (init_sensor dbSample) 308150).db_last_check = Option.none ∧
    (is_max_temperature 0 (init_sensor dbSample) 308150).notified = false := by
  rw [is_max_temperature_fired 0 (init_sensor dbSample) 308150 rfl
    (by simpa [init_sensor] using dbSample_over) rfl]
  exact ⟨rfl, rfl, rfl⟩

/-- C10: every history row written by `is_max_temperature` has a null
`alert_message`, firing evaluations included — the alert text `body` is
composed for the log and the e-mail template only and is never inserted
into the `history` table. -/
theorem history_message_always_null (now : ℚ) (s : SensorState) (mk : ℚ)
    (r : HistoryRecord) (h : (is_max_temperature now s mk).history = some r) :
    r.alert_message = Option.none :=
  ((is_max_temperature_invariants now s mk).2.2.2.2.2.2.2.2 r h).1

/-- Witness for `history_message_always_null`: the history row of a firing
evaluation of the sample sensor has a null message. -/
theorem history_message_always_null_witness :
    (is_max_temperature 0 (init_sensor dbSample) 308150).history
        = some { did := 7, timestamp := 0, temperature := tempCelsius 308150,
                 alert_triggered := true, alert_temp_max := pyInt dbSample.alert_temp_max,
                 alert_message := Option.none } ∧
    (Option.none : Option String) = Option.none := by
  have hh : (is_max_temperature 0 (init_sensor dbSample) 308150).history
      = some { did := 7, timestamp := 0, temperature := tempCelsius 308150,
               alert_triggered := true, alert_temp_max := pyInt dbSample.alert_temp_max,
               alert_message := Option.none } := by
    rw [is_max_temperature_fired 0 (init_sensor dbSample) 308150 rfl
      (by simpa [init_sensor] using dbSample_over) rfl]
    simp [init_sensor, dbSample]
  exact ⟨hh, history_message_always_null 0 (init_sensor dbSample) 308150 _ hh⟩

/-- C6: `ensure_logged_in` performs a fresh login exactly when no
credential is cached, the cached e-mail differs from the requested
identity, or the token expires in under 60 minutes; with a matching
identity and 120 minutes of validity left it does not log in, with only
30 minutes left it does. -/
theorem ensure_logged_in_policy :
    (∀ now : ℚ, ∀ email : String, ensure_logged_in Option.none now email = true) ∧
    (∀ c : Credential, ∀ now : ℚ, ∀ email : String,
        ensure_logged_in (some c) now email = true ↔
          (c.email ≠ email ∨ c.token_expires - now < 60 * 60)) ∧
    (∀ c : Credential, ∀ now : ℚ, ∀ email : String,
        c.email = email → c.token_expires = now + 120 * 60 →
        ensure_logged_in (some c) now email = false) ∧
    (∀ c : Credential, ∀ now : ℚ, ∀ email : String,
        c.token_expires = now + 30 * 60 →
        ensure_logged_in (some c) now email = true) := by
  refine ⟨fun now email => rfl, ?_, ?_, ?_⟩
  · intro c now email
    simp [ensure_logged_in]
  · intro c now email hmail hexp
    simp only [ensure_logged_in, Bool.or_eq_false_iff, decide_eq_false_iff_not, not_not,
      not_lt, hexp]
    exact ⟨hmail, by norm_num⟩
  · intro c now email hexp
    simp only [ensure_logged_in, Bool.or_eq_true, decide_eq_true_eq, hexp]
    exact Or.inr (by norm_num)

/-- Witness for `ensure_logged_in_policy`: a cached credential for "a"
expiring in 120 minutes is kept; one expiring in 30 minutes triggers a
fresh login. -/
theorem ensure_logged_in_policy_witness :
    ensure_logged_in (some { email := "a", token := "t", token_expires := 7200, refresh_token := "r" }) 0 "a" = false ∧
    ensure_logged_in (some { email := "a", token := "t", token_expires := 1800, refresh_token := "r" }) 0 "a" = true := by
  constructor
  · exact ensure_logged_in_policy.2.2.1
      { email := "a", token := "t", token_expires := 7200, refresh_token := "r" }
      0 "a" rfl (by norm_num)
  · exact ensure_logged_in_policy.2.2.2
      { email := "a", token := "t", token_expires := 1800, refresh_token := "r" }
      0 "a" (by norm_num)

lemma mem_buildSubdevices (mapping : ℤ → Option DeviceClass) (subs : List RawDevice)
    (sd : BuiltDevice) :
    sd ∈ buildSubdevices mapping subs ↔
      ∃ a ∈ subs, a.did ≠ some 1 ∧ get_device_class mapping a = some sd.cls ∧
        sd.props = a := by
  constructor
  · intro hmem
    rcases List.mem_filterMap.mp hmem with ⟨a, ha, hfa⟩
    by_cases hd1 : a.did = some 1
    · rw [if_pos hd1] at hfa
      exact absurd hfa (by simp)
    · rw [if_neg hd1] at hfa
      rcases Option.map_eq_some'.mp hfa with ⟨c, hc, hcd⟩
      refine ⟨a, ha, hd1, ?_, ?_⟩
      · rw [hc, ← hcd]
      · rw [← hcd]
  · rintro ⟨a, ha, hd1, hcls, hprops⟩
    refine List.mem_filterMap.mpr ⟨a, ha, ?_⟩
    rw [if_neg hd1, hcls]
    obtain ⟨scls, sprops⟩ := sd
    simp only at hcls hprops
    simp [hprops]

/-- C8: in every tree built by `get_devices_for_hid`, no attached
sub-device has the reserved display id 1; every attached sub-device has a
mapped model code (unmapped ones are dropped, and the builder is total, so
nothing is raised); and every hub of the listing appears in the result,
with the generic `HomgarHubDevice` class when its own model code is
unmapped. -/
theorem device_tree_builder_props
    (mapping : ℤ → Option DeviceClass) (data : List RawHub) :
    (∀ h ∈ get_devices_for_hid mapping data, ∀ sd ∈ h.subdevices,
        sd.props.did ≠ some 1) ∧
    (∀ h ∈ get_devices_for_hid mapping data, ∀ sd ∈ h.subdevices,
        get_device_class mapping sd.props = some sd.cls) ∧
    (∀ hd ∈ data, buildHub mapping hd ∈ get_devices_for_hid mapping data) ∧
    (∀ hd ∈ data, get_device_class mapping hd.props = Option.none →
        (buildHub mapping hd).cls = DeviceClass.hub) := by
  refine ⟨?_, ?_, ?_, ?_⟩
  · intro h hh sd hsd
    rcases List.mem_map.mp hh with ⟨hd, _, hbuild⟩
    rw [← hbuild] at hsd
    rcases (mem_buildSubdevices mapping hd.subDevices sd).mp hsd with ⟨a, _, hd1, _, hprops⟩
    rw [hprops]
    exact hd1
  · intro h hh sd hsd
    rcases List.mem_map.mp hh with ⟨hd, _, hbuild⟩
    rw [← hbuild] at hsd
    rcases (mem_buildSubdevices mapping hd.subDevices sd).mp hsd with ⟨a, _, _, hcls, hprops⟩
    rw [hprops]
    exact hcls
  · intro hd hmem
    exact List.mem_map.mpr ⟨hd, hmem, rfl⟩
  · intro hd _ hnone
    simp [buildHub, hnone]

/-- Static model-code mapping fixture: only code 10 is known. -/
def mapping0 : ℤ → Option DeviceClass :=
  fun c => if c = 10 then some DeviceClass.temperatureAirSensor else Option.none

/-- Vendor sub-device entries: the reserved display entry (did 1), an
unmapped one (code 50) and a mapped one (code 10). -/
def rawSub1 : RawDevice :=
  { model_code := some 10, did := some 1, mid := Option.none,
    name := Option.none, addr := Option.none }

def rawSub2 : RawDevice :=
  { model_code := some 50, did := some 2, mid := Option.none,
    name := Option.none, addr := Option.none }

def rawSub3 : RawDevice :=
  { model_code := some 10, did := some 3, mid := Option.none,
    name := Option.none, addr := Option.none }

/-- Hub entry whose own model code 99 is unmapped. -/
def rawHub0 : RawHub :=
  { props := { model_code := some 99, did := some 100, mid := some 200,
               name := Option.none, addr := Option.none },
    subDevices := [rawSub1, rawSub2, rawSub3] }

/-- Witness for `device_tree_builder_props` on the concrete listing
`[rawHub0]`: the unmapped hub is returned with the generic class, the
display entry and the unmapped sub-device are dropped, and the surviving
sub-device (did 3) has a mapped class and a non-1 id. -/
theorem device_tree_builder_props_witness :
    buildHub mapping0 rawHub0 ∈ get_devices_for_hid mapping0 [rawHub0] ∧
    (buildHub mapping0 rawHub0).cls = DeviceClass.hub ∧
    ({ cls := DeviceClass.temperatureAirSensor, props := rawSub3 }
        : BuiltDevice).props.did ≠ some 1 ∧
    (buildHub mapping0 rawHub0).subdevices
        = [{ cls := DeviceClass.temperatureAirSensor, props := rawSub3 }] := by
  have h := device_tree_builder_props mapping0 [rawHub0]
  have hmem : buildHub mapping0 rawHub0 ∈ get_devices_for_hid mapping0 [rawHub0] :=
    h.2.2.1 rawHub0 (List.mem_singleton.mpr rfl)
  have hsubs : (buildHub mapping0 rawHub0).subdevices
      = [{ cls := DeviceClass.temperatureAirSensor, props := rawSub3 }] := by
    decide
  have hsd : ({ cls := DeviceClass.temperatureAirSensor, props := rawSub3 }
      : BuiltDevice) ∈ (buildHub mapping0 rawHub0).subdevices := by
    rw [hsubs]
    exact List.mem_singleton.mpr rfl
  refine ⟨hmem, ?_, ?_, hsubs⟩
  · exact h.2.2.2 rawHub0 (List.mem_singleton.mpr rfl) (by decide)
  · exact h.1 (buildHub mapping0 rawHub0) hmem _ hsd

lemma id_map_idx_eq_none (ds : List StatusDevice) (i : ℤ) :
    id_map_idx ds i = Option.none ↔ ∀ d ∈ ds, i ∉ d.statusIds := by
  induction ds with
  | nil => simp [id_map_idx]
  | cons d ds ih =>
      constructor
      · intro h0
        simp only [id_map_idx] at h0
        cases hrec : id_map_idx ds i with
        | some j => rw [hrec] at h0; exact absurd h0 (by simp)
        | none =>
            rw [hrec] at h0
            by_cases hm : i ∈ d.statusIds
            · rw [if_pos hm] at h0
              exact absurd h0 (by simp)
            · intro d' hd'
              rcases List.mem_cons.mp hd' with hd' | hd'
              · rw [hd']; exact hm
              · exact (ih.mp hrec) d' hd'
      · intro hall
        have hrec : id_map_idx ds i = Option.none :=
          ih.mpr (fun d' hd' => hall d' (List.mem_cons_of_mem _ hd'))
        simp only [id_map_idx, hrec]
        rw [if_neg (hall d (List.mem_cons_self _ _))]

lemma id_map_idx_head (d : StatusDevice) (ds : List StatusDevice) (i : ℤ)
    (hmem : i ∈ d.statusIds) (hnot : ∀ d' ∈ ds, i ∉ d'.statusIds) :
    id_map_idx (d :: ds) i = some 0 := by
  have hrec : id_map_idx ds i = Option.none := (id_map_idx_eq_none ds i).mpr hnot
  simp only [id_map_idx, hrec]
  rw [if_pos hmem]

/-- C9 (amended): a status record whose id no device of the hub tree
answers to is a no-op (processing simply continues), and a record carrying
the hub's own status id — when no child also claims that id — updates the
hub in place and leaves every sub-device untouched.  The malformed-record
part of the claim is false, see the counterexample: a record lacking the
`id` key raises `KeyError` and aborts the remaining records. -/
theorem status_dispatch_props (h : StatusHub) (i v : ℤ) (rs : List StatusRecord) :
    ((∀ d ∈ devicesOf h, i ∉ d.statusIds) →
        get_device_status h ({ id := some i, value := v } :: rs)
          = get_device_status h rs) ∧
    (i ∈ h.hub.statusIds → (∀ d ∈ h.subdevices, i ∉ d.statusIds) →
        get_device_status h [{ id := some i, value := v }]
          = ({ h with hub := set_device_status h.hub { id := some i, value := v } },
             true)) := by
  constructor
  · intro hnone
    have hidx : id_map_idx (devicesOf h) i = Option.none :=
      (id_map_idx_eq_none _ _).mpr hnone
    simp only [get_device_status, hidx]
  · intro hhub hnot
    have hidx : id_map_idx (devicesOf h) i = some 0 :=
      id_map_idx_head h.hub h.subdevices i hhub hnot
    simp only [get_device_status, hidx, applyAt, if_pos]

/-- Dispatcher fixture: a hub answering to status id 5 with one sub-device
answering to status id 7. -/
def statusHub0 : StatusHub :=
  { hub := { statusIds := [5], lastStatus := Option.none },
    subdevices := [{ statusIds := [7], lastStatus := Option.none }] }

/-- Witness for `status_dispatch_props` on `statusHub0`: id 99 matches
nothing and is a no-op; the hub's own id 5 updates the hub, not the
child. -/
theorem status_dispatch_props_witness :
    get_device_status statusHub0 [{ id := some 99, value := 0 }] = (statusHub0, true) ∧
    get_device_status statusHub0 [{ id := some 5, value := 9 }]
      = ({ statusHub0 with
            hub := set_device_status statusHub0.hub { id := some 5, value := 9 } },
         true) := by
  constructor
  · have h := (status_dispatch_props statusHub0 99 0 []).1 (by decide)
    simpa [get_device_status] using h
  · exact (status_dispatch_props statusHub0 5 9 []).2 (by decide) (by decide)

/-- Counterexample for C9 as stated: a payload with a malformed first
record (no `id` key) followed by a valid record for the sub-device aborts
at the malformed record — the valid record is never applied (the
sub-device's status stays empty), contradicting "a malformed status record
is skipped ... never aborting the update of the remaining records". -/
theorem status_malformed_aborts_cex :
    get_device_status statusHub0
        [{ id := Option.none, value := 0 }, { id := some 7, value := 42 }]
      = (statusHub0, false) ∧
    id_map_idx (devicesOf statusHub0) 7 = some 1 ∧
    (statusHub0.subdevices.map StatusDevice.lastStatus) = [Option.none] := by
  refine ⟨rfl, ?_, rfl⟩
  decide

end Homgar
